import Mathlib

/-!
Shallow embedding of the gokart transaction coordinators
(`WithTransaction` from the postgres wrapper file and `SQLiteTransaction`
from `sqlite.go`) and of the get-or-compute cache populators
(`Remember` / `RememberJSON`), together with theorems settling the
spec claims about them.
-/

namespace Gokart

/-- Model of a Go `error` value as produced by this code base: either a
leaf error (`errors.New` / driver error), or an error built by
`fmt.Errorf` with exactly one `%w` verb, which renders as
`pre ++ cause.Error() ++ post` and unwraps to `cause`. -/
inductive GoError where
| base (msg : String)
| wrap (pre : String) (cause : GoError) (post : String)
deriving DecidableEq, Repr

/-- Go `err.Error()`: the rendered message string. -/
def errString : GoError → String
| .base m => m
| .wrap p c q => p ++ errString c ++ q

/-- Go `errors.Unwrap`: a `fmt.Errorf` error with `%w` unwraps to its
cause; a leaf error does not unwrap. -/
def unwrap : GoError → Option GoError
| .base _ => none
| .wrap _ c _ => some c

/-- All errors reachable from `e` by repeated `errors.Unwrap`,
including `e` itself (the set `errors.Is` inspects). -/
def unwrapChain : GoError → List GoError
| .base m => [.base m]
| .wrap p c q => .wrap p c q :: unwrapChain c

/-- Outcome of the unit-of-work callback `fn`: it either returns
normally (`nil` or a non-nil error) or panics with some value. -/
inductive FnOutcome where
| ret (e : Option GoError)
| panics (p : String)
deriving DecidableEq, Repr

/-- Oracle fixing the outcome of each store operation a single
coordinator call can perform: `tx.Begin`, the callback, `tx.Rollback`
and `tx.Commit` (for each, `none` = success, `some e` = failure). -/
structure TxOracle where
  beginResult : Option GoError
  fnOutcome : FnOutcome
  rollbackResult : Option GoError
  commitResult : Option GoError
deriving DecidableEq, Repr

/-- What the coordinator call does at its exit: return an
`error`-or-nil value normally, or re-raise a panic value. -/
inductive TxResult where
| ret (e : Option GoError)
| panicked (p : String)
deriving DecidableEq, Repr

/-- Observable store/callback operations attempted during one
coordinator call, in order. -/
inductive TxEvent where
| beginOp
| callFn
| rollbackOp
| commitOp
deriving DecidableEq, Repr

/-- `WithTransaction` (pool-backed relational variant), translated
line by line from the Go source: begin (wrap failure with
`"failed to begin transaction: "` and return), deferred
recover-rollback-repanic, callback error → rollback (rollback failure
wraps the original error inside a `"rollback failed: ..."` message,
rollback success returns the original error unchanged), callback
success → commit (wrap commit failure). Returns the call result and
the trace of operations attempted. -/
def WithTransaction (o : TxOracle) : TxResult × List TxEvent :=
  match o.beginResult with
  | some e => (.ret (some (.wrap "failed to begin transaction: " e "")), [.beginOp])
  | none =>
    match o.fnOutcome with
    | .panics p => (.panicked p, [.beginOp, .callFn, .rollbackOp])
    | .ret (some err) =>
      match o.rollbackResult with
      | some rbErr =>
        (.ret (some (.wrap ("rollback failed: " ++ errString rbErr ++ " (original error: ") err ")")),
         [.beginOp, .callFn, .rollbackOp])
      | none => (.ret (some err), [.beginOp, .callFn, .rollbackOp])
    | .ret none =>
      match o.commitResult with
      | some ce =>
        (.ret (some (.wrap "failed to commit transaction: " ce "")),
         [.beginOp, .callFn, .commitOp])
      | none => (.ret none, [.beginOp, .callFn, .commitOp])

/-- `SQLiteTransaction` (single-connection file-backed variant),
translated line by line from its own Go source in `sqlite.go`; the Go
text differs from `WithTransaction` only in the transaction handle
type and in passing `ctx` to the handle methods, which the embedding
does not observe. -/
def SQLiteTransaction (o : TxOracle) : TxResult × List TxEvent :=
  match o.beginResult with
  | some e => (.ret (some (.wrap "failed to begin transaction: " e "")), [.beginOp])
  | none =>
    match o.fnOutcome with
    | .panics p => (.panicked p, [.beginOp, .callFn, .rollbackOp])
    | .ret (some err) =>
      match o.rollbackResult with
      | some rbErr =>
        (.ret (some (.wrap ("rollback failed: " ++ errString rbErr ++ " (original error: ") err ")")),
         [.beginOp, .callFn, .rollbackOp])
      | none => (.ret (some err), [.beginOp, .callFn, .rollbackOp])
    | .ret none =>
      match o.commitResult with
      | some ce =>
        (.ret (some (.wrap "failed to commit transaction: " ce "")),
         [.beginOp, .callFn, .commitOp])
      | none => (.ret none, [.beginOp, .callFn, .commitOp])

/-- Modelled from the spec: a Go `interface\x7b\x7d` value passed to the cache
populators — `cache.go` itself is not among the provided sources, only
its documentation, tests and an audit report quoting it. A value is
either a string or a non-string value carrying its JSON encoding
(`none` when the value is not serializable, e.g. contains a channel). -/
inductive GoValue where
| str (s : String)
| other (enc : Option String)
deriving DecidableEq, Repr

/-- Modelled from the spec: the serialization collaborator
(`json.Marshal`); strings always encode (JSON quoting, escaping
elided), a non-string value encodes exactly when it is serializable. -/
def marshal : GoValue → Option String
| .str s => some ("\x22" ++ s ++ "\x22")
| .other enc => enc

/-- Modelled from the spec: the deserialization collaborator
(`json.Unmarshal` into a destination): a quoted payload decodes to the
string it quotes, any other payload decodes as a structured value. -/
def unmarshal (s : String) : Option GoValue :=
  if s.startsWith "\x22" then
    if s.endsWith "\x22" ∧ 2 ≤ s.length then some (.str ((s.drop 1).dropRight 1))
    else none
  else some (.other (some s))

/-- Modelled from the spec: the cache collaborator's store, a list of
(key, payload, ttl) entries, most recent write first. -/
abbrev CacheSt := List (String × String × Nat)

/-- Modelled from the spec: `cache.Get` resolving a key to its stored
payload, the distinguished not-found signal being `none`. -/
def cacheLookup (c : CacheSt) (k : String) : Option String :=
  match List.find? (fun e => e.1 == k) c with
  | some e => some e.2.1
  | none => none

/-- Modelled from the spec: `cache.Set` writing a payload under a key
with a TTL. -/
def cacheStore (c : CacheSt) (k v : String) (ttl : Nat) : CacheSt :=
  (k, v, ttl) :: c

/-- Modelled from the spec: infrastructure failures the cache
collaborator may inject into one populator call (`none` = the
operation reaches the store normally). -/
structure CacheOracle where
  readErr : Option GoError
  writeErr : Option GoError
deriving DecidableEq, Repr

/-- Result of one `Remember` call: cache state after the call, the
returned `(string, error)` pair, and how often the compute callback
was invoked. -/
structure RememberResult where
  state : CacheSt
  result : Except GoError String
  invocations : Nat

/-- Result of one `RememberJSON` call: cache state after the call, the
destination's state after the call, the returned `error`, and how
often the compute callback was invoked. -/
structure RememberJSONResult where
  state : CacheSt
  dest : GoValue
  result : Option GoError
  invocations : Nat

/-- Modelled from the spec: `Remember`, the string-returning
get-or-compute populator (`cache.go` is not among the provided
sources). Read the key; a non-miss read error is surfaced without
computing; a hit is returned exactly as stored without computing; on
the not-found signal the compute callback runs once, its failure is
surfaced with nothing written, its success is stored verbatim when a
string and JSON-encoded otherwise (a serialization failure aborts
before the write), and the stored string is returned. -/
def Remember (o : CacheOracle) (st : CacheSt) (k : String) (ttl : Nat)
    (fn : Except GoError GoValue) : RememberResult :=
  match o.readErr with
  | some e => ⟨st, .error e, 0⟩
  | none =>
    match cacheLookup st k with
    | some payload => ⟨st, .ok payload, 0⟩
    | none =>
      match fn with
      | .error e => ⟨st, .error e, 1⟩
      | .ok (.str s) =>
        match o.writeErr with
        | some e => ⟨st, .error e, 1⟩
        | none => ⟨cacheStore st k s ttl, .ok s, 1⟩
      | .ok (.other enc) =>
        match marshal (.other enc) with
        | none => ⟨st, .error (.base "json marshal failed"), 1⟩
        | some data =>
          match o.writeErr with
          | some e => ⟨st, .error e, 1⟩
          | none => ⟨cacheStore st k data ttl, .ok data, 1⟩

/-- Modelled from the spec: `RememberJSON`, the typed/destination
get-or-compute populator (`cache.go` is not among the provided
sources; the audit report in the sources quotes its tail as
`data, _ := json.Marshal(result); return json.Unmarshal(data, dest)`,
which the final branch reproduces, marshal error discarded). Read the
key; a non-miss read error is surfaced without computing; a hit is
decoded into the destination; on the not-found signal the compute
callback runs once, its failure is surfaced with nothing written and
the destination untouched, its success is JSON-encoded (a
serialization failure aborts before the write), stored with the TTL,
and the same encoded form is decoded into the destination. -/
def RememberJSON (o : CacheOracle) (st : CacheSt) (k : String) (ttl : Nat)
    (dest : GoValue) (fn : Except GoError GoValue) : RememberJSONResult :=
  match o.readErr with
  | some e => ⟨st, dest, some e, 0⟩
  | none =>
    match cacheLookup st k with
    | some payload =>
      match unmarshal payload with
      | some v => ⟨st, v, none, 0⟩
      | none => ⟨st, dest, some (.base "json unmarshal failed"), 0⟩
    | none =>
      match fn with
      | .error e => ⟨st, dest, some e, 1⟩
      | .ok v =>
        match marshal v with
        | none => ⟨st, dest, some (.base "json marshal failed"), 1⟩
        | some data =>
          match o.writeErr with
          | some e => ⟨st, dest, some e, 1⟩
          | none =>
            match unmarshal ((marshal v).getD "") with
            | some v2 => ⟨cacheStore st k data ttl, v2, none, 1⟩
            | none => ⟨cacheStore st k data ttl, dest, some (.base "json unmarshal failed"), 1⟩

/-- C1: whenever the unit-of-work callback panics inside
`WithTransaction` or `SQLiteTransaction` (after a successful begin),
the coordinator attempts exactly one rollback — whatever the rollback
outcome `o.rollbackResult` is, so a rollback failure never replaces
the panic value — and re-raises the very same panic value instead of
returning an ordinary error. -/
theorem C1_panic_rollback_reraise (o : TxOracle) (p : String)
    (hb : o.beginResult = none) (hf : o.fnOutcome = .panics p) :
    (WithTransaction o).1 = .panicked p ∧
    List.count TxEvent.rollbackOp (WithTransaction o).2 = 1 ∧
    (SQLiteTransaction o).1 = .panicked p ∧
    List.count TxEvent.rollbackOp (SQLiteTransaction o).2 = 1 := by
  simp [WithTransaction, SQLiteTransaction, hb, hf]

/-- Witness for C1 at a concrete oracle whose rollback also fails. -/
theorem C1_panic_rollback_reraise_witness :
    (WithTransaction ⟨none, .panics "boom", some (.base "rb"), none⟩).1 = .panicked "boom" ∧
    List.count TxEvent.rollbackOp (WithTransaction ⟨none, .panics "boom", some (.base "rb"), none⟩).2 = 1 ∧
    (SQLiteTransaction ⟨none, .panics "boom", some (.base "rb"), none⟩).1 = .panicked "boom" ∧
    List.count TxEvent.rollbackOp (SQLiteTransaction ⟨none, .panics "boom", some (.base "rb"), none⟩).2 = 1 :=
  C1_panic_rollback_reraise ⟨none, .panics "boom", some (.base "rb"), none⟩ "boom" rfl rfl

/-- C2: once begin succeeds, every callback outcome (success, error,
panic) leads `WithTransaction` and `SQLiteTransaction` to invoke the
callback exactly once and to resolve the transaction handle exactly
once — at most one commit attempt, at most one rollback attempt, and
exactly one of the two in total, with no retry. -/
theorem C2_resolve_exactly_once (o : TxOracle) (hb : o.beginResult = none) :
    (List.count TxEvent.commitOp (WithTransaction o).2 ≤ 1 ∧
     List.count TxEvent.rollbackOp (WithTransaction o).2 ≤ 1 ∧
     List.count TxEvent.commitOp (WithTransaction o).2 +
       List.count TxEvent.rollbackOp (WithTransaction o).2 = 1 ∧
     List.count TxEvent.callFn (WithTransaction o).2 = 1) ∧
    (List.count TxEvent.commitOp (SQLiteTransaction o).2 ≤ 1 ∧
     List.count TxEvent.rollbackOp (SQLiteTransaction o).2 ≤ 1 ∧
     List.count TxEvent.commitOp (SQLiteTransaction o).2 +
       List.count TxEvent.rollbackOp (SQLiteTransaction o).2 = 1 ∧
     List.count TxEvent.callFn (SQLiteTransaction o).2 = 1) := by
  obtain ⟨b, f, rb, cm⟩ := o
  simp only [TxOracle.beginResult] at hb
  subst hb
  rcases f with e | p
  · rcases e with _ | err
    · rcases cm with _ | ce <;> simp [WithTransaction, SQLiteTransaction]
    · rcases rb with _ | rbe <;> simp [WithTransaction, SQLiteTransaction]
  · simp [WithTransaction, SQLiteTransaction]

/-- Witness for C2 at a concrete oracle with a failing callback. -/
theorem C2_resolve_exactly_once_witness :
    (List.count TxEvent.commitOp (WithTransaction ⟨none, .ret (some (.base "e")), none, none⟩).2 ≤ 1 ∧
     List.count TxEvent.rollbackOp (WithTransaction ⟨none, .ret (some (.base "e")), none, none⟩).2 ≤ 1 ∧
     List.count TxEvent.commitOp (WithTransaction ⟨none, .ret (some (.base "e")), none, none⟩).2 +
       List.count TxEvent.rollbackOp (WithTransaction ⟨none, .ret (some (.base "e")), none, none⟩).2 = 1 ∧
     List.count TxEvent.callFn (WithTransaction ⟨none, .ret (some (.base "e")), none, none⟩).2 = 1) ∧
    (List.count TxEvent.commitOp (SQLiteTransaction ⟨none, .ret (some (.base "e")), none, none⟩).2 ≤ 1 ∧
     List.count TxEvent.rollbackOp (SQLiteTransaction ⟨none, .ret (some (.base "e")), none, none⟩).2 ≤ 1 ∧
     List.count TxEvent.commitOp (SQLiteTransaction ⟨none, .ret (some (.base "e")), none, none⟩).2 +
       List.count TxEvent.rollbackOp (SQLiteTransaction ⟨none, .ret (some (.base "e")), none, none⟩).2 = 1 ∧
     List.count TxEvent.callFn (SQLiteTransaction ⟨none, .ret (some (.base "e")), none, none⟩).2 = 1) :=
  C2_resolve_exactly_once ⟨none, .ret (some (.base "e")), none, none⟩ rfl

/-- C3: when the callback returns nil (and begin succeeded), both
coordinators attempt exactly one commit; if the commit succeeds the
call returns nil, and if the commit fails the call returns a non-nil
error wrapping that commit failure. -/
theorem C3_commit_on_success (o : TxOracle) (hb : o.beginResult = none)
    (hf : o.fnOutcome = .ret none) :
    (List.count TxEvent.commitOp (WithTransaction o).2 = 1 ∧
     (o.commitResult = none → (WithTransaction o).1 = .ret none) ∧
     (∀ ce, o.commitResult = some ce →
       (WithTransaction o).1 = .ret (some (.wrap "failed to commit transaction: " ce "")))) ∧
    (List.count TxEvent.commitOp (SQLiteTransaction o).2 = 1 ∧
     (o.commitResult = none → (SQLiteTransaction o).1 = .ret none) ∧
     (∀ ce, o.commitResult = some ce →
       (SQLiteTransaction o).1 = .ret (some (.wrap "failed to commit transaction: " ce "")))) := by
  obtain ⟨b, f, rb, cm⟩ := o
  simp only [TxOracle.beginResult] at hb
  simp only [TxOracle.fnOutcome] at hf
  subst hb; subst hf
  rcases cm with _ | ce <;> simp [WithTransaction, SQLiteTransaction]

/-- Witness for C3 at a concrete oracle with a failing commit, with
every hypothesis discharged. -/
theorem C3_commit_on_success_witness :
    List.count TxEvent.commitOp (WithTransaction ⟨none, .ret none, none, some (.base "cfail")⟩).2 = 1 ∧
    (WithTransaction ⟨none, .ret none, none, some (.base "cfail")⟩).1 =
      .ret (some (.wrap "failed to commit transaction: " (.base "cfail") "")) ∧
    List.count TxEvent.commitOp (SQLiteTransaction ⟨none, .ret none, none, some (.base "cfail")⟩).2 = 1 ∧
    (SQLiteTransaction ⟨none, .ret none, none, some (.base "cfail")⟩).1 =
      .ret (some (.wrap "failed to commit transaction: " (.base "cfail") "")) :=
  ⟨(C3_commit_on_success ⟨none, .ret none, none, some (.base "cfail")⟩ rfl rfl).1.1,
   (C3_commit_on_success ⟨none, .ret none, none, some (.base "cfail")⟩ rfl rfl).1.2.2
     (.base "cfail") rfl,
   (C3_commit_on_success ⟨none, .ret none, none, some (.base "cfail")⟩ rfl rfl).2.1,
   (C3_commit_on_success ⟨none, .ret none, none, some (.base "cfail")⟩ rfl rfl).2.2.2
     (.base "cfail") rfl⟩

/-- C4: when the callback returns a non-nil error (and begin
succeeded), both coordinators attempt exactly one rollback and never
commit; if the rollback succeeds, the call returns exactly the
callback's original error, unchanged and unwrapped. -/
theorem C4_rollback_on_error (o : TxOracle) (err : GoError)
    (hb : o.beginResult = none) (hf : o.fnOutcome = .ret (some err)) :
    (List.count TxEvent.rollbackOp (WithTransaction o).2 = 1 ∧
     List.count TxEvent.commitOp (WithTransaction o).2 = 0 ∧
     (o.rollbackResult = none → (WithTransaction o).1 = .ret (some err))) ∧
    (List.count TxEvent.rollbackOp (SQLiteTransaction o).2 = 1 ∧
     List.count TxEvent.commitOp (SQLiteTransaction o).2 = 0 ∧
     (o.rollbackResult = none → (SQLiteTransaction o).1 = .ret (some err))) := by
  obtain ⟨b, f, rb, cm⟩ := o
  simp only [TxOracle.beginResult] at hb
  simp only [TxOracle.fnOutcome] at hf
  subst hb; subst hf
  rcases rb with _ | rbe <;> simp [WithTransaction, SQLiteTransaction]

/-- Witness for C4 at a concrete oracle with a succeeding rollback,
with every hypothesis discharged. -/
theorem C4_rollback_on_error_witness :
    List.count TxEvent.rollbackOp (WithTransaction ⟨none, .ret (some (.base "e")), none, none⟩).2 = 1 ∧
    List.count TxEvent.commitOp (WithTransaction ⟨none, .ret (some (.base "e")), none, none⟩).2 = 0 ∧
    (WithTransaction ⟨none, .ret (some (.base "e")), none, none⟩).1 = .ret (some (.base "e")) ∧
    List.count TxEvent.rollbackOp (SQLiteTransaction ⟨none, .ret (some (.base "e")), none, none⟩).2 = 1 ∧
    List.count TxEvent.commitOp (SQLiteTransaction ⟨none, .ret (some (.base "e")), none, none⟩).2 = 0 ∧
    (SQLiteTransaction ⟨none, .ret (some (.base "e")), none, none⟩).1 = .ret (some (.base "e")) :=
  ⟨(C4_rollback_on_error ⟨none, .ret (some (.base "e")), none, none⟩ (.base "e") rfl rfl).1.1,
   (C4_rollback_on_error ⟨none, .ret (some (.base "e")), none, none⟩ (.base "e") rfl rfl).1.2.1,
   (C4_rollback_on_error ⟨none, .ret (some (.base "e")), none, none⟩ (.base "e") rfl rfl).1.2.2 rfl,
   (C4_rollback_on_error ⟨none, .ret (some (.base "e")), none, none⟩ (.base "e") rfl rfl).2.1,
   (C4_rollback_on_error ⟨none, .ret (some (.base "e")), none, none⟩ (.base "e") rfl rfl).2.2.1,
   (C4_rollback_on_error ⟨none, .ret (some (.base "e")), none, none⟩ (.base "e") rfl rfl).2.2.2 rfl⟩

/-- C5: when begin fails, both coordinators return a non-nil error
(wrapping the begin failure) at once: the callback is never invoked
and no commit or rollback is ever attempted. -/
theorem C5_begin_failure (o : TxOracle) (e : GoError)
    (hb : o.beginResult = some e) :
    ((WithTransaction o).1 = .ret (some (.wrap "failed to begin transaction: " e "")) ∧
     List.count TxEvent.callFn (WithTransaction o).2 = 0 ∧
     List.count TxEvent.commitOp (WithTransaction o).2 = 0 ∧
     List.count TxEvent.rollbackOp (WithTransaction o).2 = 0) ∧
    ((SQLiteTransaction o).1 = .ret (some (.wrap "failed to begin transaction: " e "")) ∧
     List.count TxEvent.callFn (SQLiteTransaction o).2 = 0 ∧
     List.count TxEvent.commitOp (SQLiteTransaction o).2 = 0 ∧
     List.count TxEvent.rollbackOp (SQLiteTransaction o).2 = 0) := by
  simp [WithTransaction, SQLiteTransaction, hb]

/-- Witness for C5 at a concrete oracle whose begin fails. -/
theorem C5_begin_failure_witness :
    ((WithTransaction ⟨some (.base "nopool"), .ret none, none, none⟩).1 =
       .ret (some (.wrap "failed to begin transaction: " (.base "nopool") "")) ∧
     List.count TxEvent.callFn (WithTransaction ⟨some (.base "nopool"), .ret none, none, none⟩).2 = 0 ∧
     List.count TxEvent.commitOp (WithTransaction ⟨some (.base "nopool"), .ret none, none, none⟩).2 = 0 ∧
     List.count TxEvent.rollbackOp (WithTransaction ⟨some (.base "nopool"), .ret none, none, none⟩).2 = 0) ∧
    ((SQLiteTransaction ⟨some (.base "nopool"), .ret none, none, none⟩).1 =
       .ret (some (.wrap "failed to begin transaction: " (.base "nopool") "")) ∧
     List.count TxEvent.callFn (SQLiteTransaction ⟨some (.base "nopool"), .ret none, none, none⟩).2 = 0 ∧
     List.count TxEvent.commitOp (SQLiteTransaction ⟨some (.base "nopool"), .ret none, none, none⟩).2 = 0 ∧
     List.count TxEvent.rollbackOp (SQLiteTransaction ⟨some (.base "nopool"), .ret none, none, none⟩).2 = 0) :=
  C5_begin_failure ⟨some (.base "nopool"), .ret none, none, none⟩ (.base "nopool") rfl

/-- The compound error built by both coordinators at
`fmt.Errorf("rollback failed: %v (original error: %w)", rbErr, err)`:
the rollback error is rendered into the text, the original error is
the `%w`-wrapped cause. -/
def rollbackCompound (rbe err : GoError) : GoError :=
  .wrap ("rollback failed: " ++ errString rbe ++ " (original error: ") err ")"

/-- C10: when the callback returns an error and the rollback also
fails, both coordinators return the compound error whose direct unwrap
is the original callback error (so the original remains structurally
reachable by error unwrapping), whose rendered message embeds the
rollback error only as formatted text, and whose unwrap chain is
exactly itself followed by the original error's chain — the rollback
error is never added to the chain. -/
theorem C10_compound_error_structure (o : TxOracle) (err rbe : GoError)
    (hb : o.beginResult = none) (hf : o.fnOutcome = .ret (some err))
    (hrb : o.rollbackResult = some rbe) :
    (WithTransaction o).1 = .ret (some (rollbackCompound rbe err)) ∧
    (SQLiteTransaction o).1 = .ret (some (rollbackCompound rbe err)) ∧
    unwrap (rollbackCompound rbe err) = some err ∧
    errString (rollbackCompound rbe err) =
      "rollback failed: " ++ errString rbe ++ " (original error: " ++ errString err ++ ")" ∧
    unwrapChain (rollbackCompound rbe err) =
      rollbackCompound rbe err :: unwrapChain err := by
  refine ⟨?_, ?_, rfl, ?_, rfl⟩
  · simp [WithTransaction, hb, hf, hrb, rollbackCompound]
  · simp [SQLiteTransaction, hb, hf, hrb, rollbackCompound]
  · simp [errString, rollbackCompound, String.append_assoc]

/-- Witness for C10 at a concrete oracle where callback and rollback
both fail. -/
theorem C10_compound_error_structure_witness :
    (WithTransaction ⟨none, .ret (some (.base "boom")), some (.base "rbfail"), none⟩).1 =
      .ret (some (rollbackCompound (.base "rbfail") (.base "boom"))) ∧
    (SQLiteTransaction ⟨none, .ret (some (.base "boom")), some (.base "rbfail"), none⟩).1 =
      .ret (some (rollbackCompound (.base "rbfail") (.base "boom"))) ∧
    unwrap (rollbackCompound (.base "rbfail") (.base "boom")) = some (.base "boom") ∧
    errString (rollbackCompound (.base "rbfail") (.base "boom")) =
      "rollback failed: " ++ errString (.base "rbfail") ++ " (original error: " ++
        errString (.base "boom") ++ ")" ∧
    unwrapChain (rollbackCompound (.base "rbfail") (.base "boom")) =
      rollbackCompound (.base "rbfail") (.base "boom") :: unwrapChain (.base "boom") :=
  C10_compound_error_structure ⟨none, .ret (some (.base "boom")), some (.base "rbfail"), none⟩
    (.base "boom") (.base "rbfail") rfl rfl rfl

/-- C6 counterexample: the claim asserts the source applies two
divergent rollback-failure reporting policies (wrap-and-return versus
log-and-return-original) across the two coordinator variants; at a
concrete oracle whose callback and rollback both fail, the two
variants return the very same compound error, and that error is a
wrapping of the original callback error rather than the original
returned unchanged — both variants wrap-and-return, so no divergence
exists in the embedded source. -/
theorem C6_no_divergence_counterexample :
    WithTransaction ⟨none, .ret (some (.base "boom")), some (.base "rbfail"), none⟩ =
      SQLiteTransaction ⟨none, .ret (some (.base "boom")), some (.base "rbfail"), none⟩ ∧
    (SQLiteTransaction ⟨none, .ret (some (.base "boom")), some (.base "rbfail"), none⟩).1 ≠
      .ret (some (.base "boom")) ∧
    (SQLiteTransaction ⟨none, .ret (some (.base "boom")), some (.base "rbfail"), none⟩).1 =
      .ret (some (.wrap "rollback failed: rbfail (original error: " (.base "boom") ")")) := by
  refine ⟨rfl, ?_, rfl⟩
  decide

/-- C6 (amended): the two coordinator variants have identical
externally observable commit/rollback/panic-recovery behavior at
every callback outcome — including an identical wrap-and-return
rollback-failure reporting policy, with no divergence between the two
functions. -/
theorem C6_variants_equivalent (o : TxOracle) :
    WithTransaction o = SQLiteTransaction o ∧
    (o.beginResult = none →
      ∀ err rbe, o.fnOutcome = .ret (some err) → o.rollbackResult = some rbe →
      (WithTransaction o).1 = .ret (some (rollbackCompound rbe err)) ∧
      (SQLiteTransaction o).1 = .ret (some (rollbackCompound rbe err))) := by
  constructor
  · rfl
  · intro hb err rbe hf hrb
    constructor
    · simp [WithTransaction, hb, hf, hrb, rollbackCompound]
    · simp [SQLiteTransaction, hb, hf, hrb, rollbackCompound]

/-- Witness for the amended C6 at a concrete oracle where the
rollback-failure reporting policy is exercised, with every hypothesis
discharged. -/
theorem C6_variants_equivalent_witness :
    WithTransaction ⟨none, .ret (some (.base "x")), some (.base "r"), none⟩ =
      SQLiteTransaction ⟨none, .ret (some (.base "x")), some (.base "r"), none⟩ ∧
    (WithTransaction ⟨none, .ret (some (.base "x")), some (.base "r"), none⟩).1 =
      .ret (some (rollbackCompound (.base "r") (.base "x"))) ∧
    (SQLiteTransaction ⟨none, .ret (some (.base "x")), some (.base "r"), none⟩).1 =
      .ret (some (rollbackCompound (.base "r") (.base "x"))) :=
  ⟨(C6_variants_equivalent ⟨none, .ret (some (.base "x")), some (.base "r"), none⟩).1,
   (C6_variants_equivalent ⟨none, .ret (some (.base "x")), some (.base "r"), none⟩).2
     rfl (.base "x") (.base "r") rfl rfl⟩

/-- The compute callback runs exactly once on the distinguished
not-found signal with no infrastructure read error, and never
otherwise, in `Remember`. -/
theorem Remember_invocations_eq (o : CacheOracle) (st : CacheSt) (k : String) (ttl : Nat)
    (fn : Except GoError GoValue) :
    (Remember o st k ttl fn).invocations =
      if o.readErr = none ∧ cacheLookup st k = none then 1 else 0 := by
  obtain ⟨re, we⟩ := o
  rcases re with _ | e
  · rcases h : cacheLookup st k with _ | p
    · rcases fn with e2 | v2
      · simp [Remember, h]
      · rcases v2 with s | enc
        · rcases we with _ | e3 <;> simp [Remember, h]
        · rcases enc with _ | d <;> rcases we with _ | e3 <;> simp [Remember, h, marshal]
    · simp [Remember, h]
  · simp [Remember]

/-- The compute callback runs exactly once on the distinguished
not-found signal with no infrastructure read error, and never
otherwise, in `RememberJSON`. -/
theorem RememberJSON_invocations_eq (o : CacheOracle) (st : CacheSt) (k : String) (ttl : Nat)
    (dest : GoValue) (fn : Except GoError GoValue) :
    (RememberJSON o st k ttl dest fn).invocations =
      if o.readErr = none ∧ cacheLookup st k = none then 1 else 0 := by
  obtain ⟨re, we⟩ := o
  rcases re with _ | e
  · rcases h : cacheLookup st k with _ | p
    · rcases fn with e2 | v2
      · simp [RememberJSON, h]
      · rcases hm : marshal v2 with _ | d
        · simp [RememberJSON, h, hm]
        · rcases we with _ | e3
          · rcases hu : unmarshal d with _ | v3 <;>
              simp [RememberJSON, h, hm, hu]
          · simp [RememberJSON, h, hm]
    · rcases hu : unmarshal p with _ | v3 <;> simp [RememberJSON, h, hu]
  · simp [RememberJSON]

/-- C7: in both populator variants, when the compute callback
succeeds but its result fails to serialize, the call leaves the cache
exactly as it was (nothing is written), leaves the destination
untouched, and returns a non-nil error, even though the callback ran
(once). -/
theorem C7_serialize_failure_aborts (o : CacheOracle) (st : CacheSt) (k : String)
    (ttl : Nat) (v dest : GoValue)
    (hr : o.readErr = none) (hmiss : cacheLookup st k = none)
    (hm : marshal v = none) :
    (Remember o st k ttl (.ok v)).state = st ∧
    (Remember o st k ttl (.ok v)).result = .error (.base "json marshal failed") ∧
    (Remember o st k ttl (.ok v)).invocations = 1 ∧
    (RememberJSON o st k ttl dest (.ok v)).state = st ∧
    (RememberJSON o st k ttl dest (.ok v)).result = some (.base "json marshal failed") ∧
    (RememberJSON o st k ttl dest (.ok v)).dest = dest ∧
    (RememberJSON o st k ttl dest (.ok v)).invocations = 1 := by
  rcases v with s | enc
  · simp [marshal] at hm
  · have henc : enc = none := by simpa [marshal] using hm
    subst henc
    simp [Remember, RememberJSON, hr, hmiss, marshal]

/-- Witness for C7 at a concrete non-serializable compute result on
an empty cache. -/
theorem C7_serialize_failure_aborts_witness :
    (Remember ⟨none, none⟩ [] "k" 60 (.ok (.other none))).state = [] ∧
    (Remember ⟨none, none⟩ [] "k" 60 (.ok (.other none))).result =
      .error (.base "json marshal failed") ∧
    (Remember ⟨none, none⟩ [] "k" 60 (.ok (.other none))).invocations = 1 ∧
    (RememberJSON ⟨none, none⟩ [] "k" 60 (.str "prior") (.ok (.other none))).state = [] ∧
    (RememberJSON ⟨none, none⟩ [] "k" 60 (.str "prior") (.ok (.other none))).result =
      some (.base "json marshal failed") ∧
    (RememberJSON ⟨none, none⟩ [] "k" 60 (.str "prior") (.ok (.other none))).dest = .str "prior" ∧
    (RememberJSON ⟨none, none⟩ [] "k" 60 (.str "prior") (.ok (.other none))).invocations = 1 :=
  C7_serialize_failure_aborts ⟨none, none⟩ [] "k" 60 (.other none) (.str "prior") rfl rfl rfl

/-- C8: in both populator variants, a failing compute callback makes
the call return that failure, write nothing to the cache (the state,
hence the key's entry, is unchanged), and leave the destination in
its prior state. -/
theorem C8_no_write_on_compute_failure (o : CacheOracle) (st : CacheSt) (k : String)
    (ttl : Nat) (e : GoError) (dest : GoValue)
    (hr : o.readErr = none) (hmiss : cacheLookup st k = none) :
    (Remember o st k ttl (.error e)).state = st ∧
    (Remember o st k ttl (.error e)).result = .error e ∧
    (RememberJSON o st k ttl dest (.error e)).state = st ∧
    (RememberJSON o st k ttl dest (.error e)).result = some e ∧
    (RememberJSON o st k ttl dest (.error e)).dest = dest := by
  simp [Remember, RememberJSON, hr, hmiss]

/-- Witness for C8 at a concrete failing compute callback, on a cache
holding an unrelated key. -/
theorem C8_no_write_on_compute_failure_witness :
    (Remember ⟨none, none⟩ [("other", "w", 5)] "k" 60 (.error (.base "db down"))).state =
      [("other", "w", 5)] ∧
    (Remember ⟨none, none⟩ [("other", "w", 5)] "k" 60 (.error (.base "db down"))).result =
      .error (.base "db down") ∧
    (RememberJSON ⟨none, none⟩ [("other", "w", 5)] "k" 60 (.str "prior")
        (.error (.base "db down"))).state = [("other", "w", 5)] ∧
    (RememberJSON ⟨none, none⟩ [("other", "w", 5)] "k" 60 (.str "prior")
        (.error (.base "db down"))).result = some (.base "db down") ∧
    (RememberJSON ⟨none, none⟩ [("other", "w", 5)] "k" 60 (.str "prior")
        (.error (.base "db down"))).dest = .str "prior" :=
  C8_no_write_on_compute_failure ⟨none, none⟩ [("other", "w", 5)] "k" 60 (.base "db down")
    (.str "prior") rfl (by decide)

/-- C9: on a cache hit `Remember` returns the stored payload exactly
as stored and `RememberJSON` populates the destination by decoding
that payload, neither invoking the compute callback nor touching the
cache; and across all inputs each variant invokes the callback at
most once, exactly on the distinguished not-found signal. -/
theorem C9_hit_no_compute (o : CacheOracle) (st : CacheSt) (k : String) (ttl : Nat)
    (payload : String) (dest : GoValue) (fn : Except GoError GoValue)
    (hr : o.readErr = none) (hhit : cacheLookup st k = some payload) :
    (Remember o st k ttl fn).result = .ok payload ∧
    (Remember o st k ttl fn).invocations = 0 ∧
    (Remember o st k ttl fn).state = st ∧
    (RememberJSON o st k ttl dest fn).invocations = 0 ∧
    (RememberJSON o st k ttl dest fn).state = st ∧
    (RememberJSON o st k ttl dest fn).dest =
      (match unmarshal payload with
       | some v => v
       | none => dest) ∧
    (∀ o2 st2 k2 ttl2 fn2, (Remember o2 st2 k2 ttl2 fn2).invocations =
      if o2.readErr = none ∧ cacheLookup st2 k2 = none then 1 else 0) ∧
    (∀ o2 st2 k2 ttl2 dest2 fn2, (RememberJSON o2 st2 k2 ttl2 dest2 fn2).invocations =
      if o2.readErr = none ∧ cacheLookup st2 k2 = none then 1 else 0) := by
  refine ⟨?_, ?_, ?_, ?_, ?_, ?_, fun o2 st2 k2 ttl2 fn2 =>
    Remember_invocations_eq o2 st2 k2 ttl2 fn2,
    fun o2 st2 k2 ttl2 dest2 fn2 =>
      RememberJSON_invocations_eq o2 st2 k2 ttl2 dest2 fn2⟩
  · simp [Remember, hr, hhit]
  · simp [Remember, hr, hhit]
  · simp [Remember, hr, hhit]
  · rcases hu : unmarshal payload with _ | v <;> simp [RememberJSON, hr, hhit, hu]
  · rcases hu : unmarshal payload with _ | v <;> simp [RememberJSON, hr, hhit, hu]
  · rcases hu : unmarshal payload with _ | v <;> simp [RememberJSON, hr, hhit, hu]

/-- Witness for C9 at a concrete pre-populated key, with the
universally quantified at-most-once part instantiated at a concrete
miss. -/
theorem C9_hit_no_compute_witness :
    (Remember ⟨none, none⟩ [("k", "\x22v\x22", 10)] "k" 3600 (.ok (.str "new"))).result =
      .ok "\x22v\x22" ∧
    (Remember ⟨none, none⟩ [("k", "\x22v\x22", 10)] "k" 3600 (.ok (.str "new"))).invocations = 0 ∧
    (RememberJSON ⟨none, none⟩ [("k", "\x22v\x22", 10)] "k" 3600 (.str "old")
        (.ok (.str "new"))).invocations = 0 ∧
    (RememberJSON ⟨none, none⟩ [("k", "\x22v\x22", 10)] "k" 3600 (.str "old")
        (.ok (.str "new"))).dest =
      (match unmarshal "\x22v\x22" with
       | some v => v
       | none => .str "old") ∧
    (Remember ⟨none, none⟩ [] "k2" 5 (.ok (.str "w"))).invocations =
      (if (⟨none, none⟩ : CacheOracle).readErr = none ∧ cacheLookup [] "k2" = none
       then 1 else 0) :=
  ⟨(C9_hit_no_compute ⟨none, none⟩ [("k", "\x22v\x22", 10)] "k" 3600 "\x22v\x22" (.str "old")
      (.ok (.str "new")) rfl (by decide)).1,
   (C9_hit_no_compute ⟨none, none⟩ [("k", "\x22v\x22", 10)] "k" 3600 "\x22v\x22" (.str "old")
      (.ok (.str "new")) rfl (by decide)).2.1,
   (C9_hit_no_compute ⟨none, none⟩ [("k", "\x22v\x22", 10)] "k" 3600 "\x22v\x22" (.str "old")
      (.ok (.str "new")) rfl (by decide)).2.2.2.1,
   (C9_hit_no_compute ⟨none, none⟩ [("k", "\x22v\x22", 10)] "k" 3600 "\x22v\x22" (.str "old")
      (.ok (.str "new")) rfl (by decide)).2.2.2.2.2.1,
   (C9_hit_no_compute ⟨none, none⟩ [("k", "\x22v\x22", 10)] "k" 3600 "\x22v\x22" (.str "old")
      (.ok (.str "new")) rfl (by decide)).2.2.2.2.2.2.1 ⟨none, none⟩ [] "k2" 5 (.ok (.str "w"))⟩

end Gokart
